import Mathlib

/-!
Verification development for the Background-remover backend.

The Python sources under `backend/` are shallowly embedded below:
pure functions become Lean functions over explicit data models
(PIL images as a mode/size/alpha record, numpy arrays as a shape/data
record, floats as rationals, Python `int()` truncation of non-negative
values as `Nat.floor`), exception-raising code returns `Except`, and
external OpenCV/PIL primitives that the claims treat as opaque are
passed in as explicit function parameters.
-/

set_option linter.unusedVariables false

namespace BGRemover

/-! ## Python string helpers

`charUpper`/`strUpper` model Python `str.upper()` on ASCII data (the
only data the code compares case-insensitively: format names). -/

def charUpper (c : Char) : Char :=
  if 97 ≤ c.toNat ∧ c.toNat ≤ 122 then Char.ofNat (c.toNat - 32) else c

def strUpper (s : String) : String :=
  String.mk (s.data.map charUpper)

theorem charUpper_charUpper (c : Char) : charUpper (charUpper c) = charUpper c := by
  have hv : ∀ n, n < 91 → 65 ≤ n → (Char.ofNat n).toNat = n := by decide
  unfold charUpper
  by_cases h : 97 ≤ c.toNat ∧ c.toNat ≤ 122
  · rw [if_pos h, if_neg]
    rw [hv (c.toNat - 32) (by omega) (by omega)]
    omega
  · rw [if_neg h, if_neg h]

theorem strUpper_strUpper (s : String) : strUpper (strUpper s) = strUpper s := by
  unfold strUpper
  show String.mk ((s.data.map charUpper).map charUpper) = _
  rw [List.map_map]
  congr 1
  apply List.map_congr_left
  intro c _
  exact charUpper_charUpper c

/-! ## PIL image model

A PIL image is modelled by its mode, spatial size, the presence of a
`transparency` key in `image.info`, and the raw alpha samples (only
the spec refers to alpha values; `_has_transparency` in the source
never reads them). -/

inductive PMode
  | RGB | RGBA | LA | L | P | CMYK
deriving DecidableEq

structure PImage where
  mode : PMode
  width : Nat
  height : Nat
  infoTransparency : Bool
  alphaData : List Nat
deriving DecidableEq

/-- `ImageFormatOptimizer._has_transparency` (format_optimizer.py 57-67). -/
def hasTransparency (image : PImage) : Bool :=
  if image.mode = PMode.RGBA ∨ image.mode = PMode.LA then true
  else if image.mode = PMode.P ∧ image.infoTransparency = true then true
  else false

/-- Python truthiness plus `original_format.upper() in ['JPEG', 'JPG']`. -/
def hintIsJpeg (originalFormat : Option String) : Bool :=
  match originalFormat with
  | none => false
  | some f => if f ≠ "" ∧ (strUpper f = "JPEG" ∨ strUpper f = "JPG") then true else false

/-- `ImageFormatOptimizer.get_optimal_format` (format_optimizer.py 40-55). -/
def getOptimalFormat (image : PImage) (originalFormat : Option String) : String :=
  if hasTransparency image = true then "PNG"
  else if hintIsJpeg originalFormat = true then "JPEG"
  else "PNG"

/-- Modelled from the spec: `chooseFormat` per section 4.5, where having
transparency means "an alpha channel present with non-opaque values, or a
palette transparency key".  Used only to compare against the source's
`getOptimalFormat`. -/
def chooseFormatSpec (image : PImage) (hint : Option String) : String :=
  if ((image.mode = PMode.RGBA ∨ image.mode = PMode.LA) ∧
        image.alphaData.any (fun a => a ≠ 255) = true) ∨
      (image.mode = PMode.P ∧ image.infoTransparency = true) then "PNG"
  else if hintIsJpeg hint = true then "JPEG"
  else "PNG"

/-- The amended format rule: PNG whenever the mode carries an alpha channel
(RGBA or LA) regardless of the alpha values, or the palette has a
transparency key; else JPEG exactly on a JPEG/JPG hint; else PNG. -/
def chooseFormatAmended (image : PImage) (hint : Option String) : String :=
  if (image.mode = PMode.RGBA ∨ image.mode = PMode.LA) ∨
      (image.mode = PMode.P ∧ image.infoTransparency = true) then "PNG"
  else if hintIsJpeg hint = true then "JPEG"
  else "PNG"

/-- A fully opaque RGBA image: every alpha sample is 255. -/
def opaqueRGBA : PImage :=
  { mode := PMode.RGBA, width := 2, height := 2,
    infoTransparency := false, alphaData := [255, 255, 255, 255] }

/-- C3 counterexample: a fully opaque RGBA image with a `jpeg` source hint has
no transparency in the spec's sense, so the claim demands JPEG; the code's
`get_optimal_format` nevertheless returns PNG because `_has_transparency`
inspects only the mode, never the alpha values. -/
theorem C3_counterexample :
    getOptimalFormat opaqueRGBA (some "jpeg") = "PNG" ∧
    chooseFormatSpec opaqueRGBA (some "jpeg") = "JPEG" := by
  constructor <;> decide

/-- C3 (amended): `get_optimal_format` returns PNG exactly when the image's
mode carries an alpha channel (RGBA or LA, regardless of the alpha values) or
is palette mode with a transparency key; otherwise it returns JPEG exactly
when the source hint is a nonempty string uppercasing to JPEG or JPG, and PNG
in every remaining case. -/
theorem C3_format_choice (image : PImage) (hint : Option String) :
    getOptimalFormat image hint = chooseFormatAmended image hint := by
  by_cases h1 : image.mode = PMode.RGBA ∨ image.mode = PMode.LA
  · simp [getOptimalFormat, chooseFormatAmended, hasTransparency, h1]
  · by_cases h2 : image.mode = PMode.P ∧ image.infoTransparency = true
    · simp [getOptimalFormat, chooseFormatAmended, hasTransparency, h1, h2]
    · simp [getOptimalFormat, chooseFormatAmended, hasTransparency, h1, h2]

/-! ## Encode parameters (format_optimizer.py 17-38 and 81-103) -/

structure EncodeConfig where
  optimize : Bool
  compressLevel : Option Nat
  quality : Option Nat
  progressive : Option Bool
  method : Option Nat
  lossless : Option Bool
deriving DecidableEq, Inhabited

/-- `ImageFormatOptimizer.__init__`: the `format_configs` table. -/
def formatConfigs (format : String) : Option EncodeConfig :=
  if format = "PNG" then
    some { optimize := true, compressLevel := some 6, quality := none,
           progressive := none, method := none, lossless := none }
  else if format = "JPEG" then
    some { optimize := true, compressLevel := none, quality := some 95,
           progressive := some true, method := none, lossless := none }
  else if format = "WEBP" then
    some { optimize := true, compressLevel := none, quality := some 95,
           progressive := none, method := some 6, lossless := some false }
  else none

/-- The quality-level adjustment chain in `optimize_image`
(format_optimizer.py 81-103). -/
def adjustConfig (format qualityLevel : String) (config : EncodeConfig) : EncodeConfig :=
  if qualityLevel = "ultra" then
    if format = "JPEG" then { config with quality := some 98 }
    else if format = "WEBP" then { config with quality := some 98, method := some 6 }
    else config
  else if qualityLevel = "high" then config
  else if qualityLevel = "medium" then
    if format = "JPEG" then { config with quality := some 85 }
    else if format = "WEBP" then { config with quality := some 85 }
    else if format = "PNG" then { config with compressLevel := some 9 }
    else config
  else if qualityLevel = "low" then
    if format = "JPEG" then { config with quality := some 75 }
    else if format = "WEBP" then { config with quality := some 75 }
    else if format = "PNG" then { config with compressLevel := some 9 }
    else config
  else config

/-- The effective encode parameters for a supported format at a tier. -/
def cfgFor (format qualityLevel : String) : EncodeConfig :=
  adjustConfig format qualityLevel ((formatConfigs format).getD default)

/-- C6: the tier-adjusted encode parameters equal the literal contract table:
PNG compress level 6 at ultra and high, 9 at medium and low; WEBP quality
95 at high, 98 at ultra, 85 at medium, 75 at low; JPEG quality 95 at high,
98 at ultra, 85 at medium, 75 at low, with JPEG progressive at every tier. -/
theorem C6_parameter_table :
    (cfgFor "PNG" "ultra").compressLevel = some 6 ∧
    (cfgFor "PNG" "high").compressLevel = some 6 ∧
    (cfgFor "PNG" "medium").compressLevel = some 9 ∧
    (cfgFor "PNG" "low").compressLevel = some 9 ∧
    (cfgFor "WEBP" "high").quality = some 95 ∧
    (cfgFor "WEBP" "ultra").quality = some 98 ∧
    (cfgFor "WEBP" "medium").quality = some 85 ∧
    (cfgFor "WEBP" "low").quality = some 75 ∧
    (cfgFor "JPEG" "high").quality = some 95 ∧
    (cfgFor "JPEG" "ultra").quality = some 98 ∧
    (cfgFor "JPEG" "medium").quality = some 85 ∧
    (cfgFor "JPEG" "low").quality = some 75 ∧
    (cfgFor "JPEG" "ultra").progressive = some true ∧
    (cfgFor "JPEG" "high").progressive = some true ∧
    (cfgFor "JPEG" "medium").progressive = some true ∧
    (cfgFor "JPEG" "low").progressive = some true := by
  decide

/-! ## Image preparation and encoding (format_optimizer.py 104-182)

The actual PIL `save` call is an external effect; it is passed in as an
explicit `encode` function from the exact keyword arguments the source
builds (one record per format branch) to either encoded bytes or a
raised exception. -/

def convertRGB (image : PImage) : PImage :=
  { image with mode := PMode.RGB, alphaData := [] }

def convertRGBA (image : PImage) : PImage :=
  { image with mode := PMode.RGBA }

/-- Paste onto an opaque white RGB background (the JPEG branch of
`_prepare_image_for_format`). -/
def flattenWhite (image : PImage) : PImage :=
  { image with mode := PMode.RGB, alphaData := [] }

/-- `ImageFormatOptimizer._prepare_image_for_format` (format_optimizer.py 149-182). -/
def prepareImageForFormat (image : PImage) (format : String) : PImage :=
  let fmt := strUpper format
  if fmt = "JPEG" then
    if image.mode = PMode.RGBA ∨ image.mode = PMode.LA then flattenWhite image
    else if image.mode ≠ PMode.RGB then convertRGB image
    else image
  else if fmt = "PNG" then
    if hasTransparency image = true ∧ image.mode ≠ PMode.RGBA then convertRGBA image
    else if hasTransparency image = false ∧ ¬(image.mode = PMode.RGB ∨ image.mode = PMode.L) then
      convertRGB image
    else image
  else if fmt = "WEBP" then
    if hasTransparency image = true ∧ image.mode ≠ PMode.RGBA then convertRGBA image
    else if hasTransparency image = false ∧ image.mode ≠ PMode.RGB then convertRGB image
    else image
  else image

/-- The keyword arguments of one `save` call. -/
structure SaveArgs where
  format : String
  optimize : Bool
  compressLevel : Option Nat
  quality : Option Nat
  progressive : Option Bool
  method : Option Nat
  lossless : Option Bool
  image : PImage
deriving DecidableEq

/-- A raised Python exception, as far as the embedded code inspects it. -/
inductive PyErr
  | valueError (msg : String)
  | httpExn (status : Nat) (detail : String)
deriving DecidableEq

/-- The arguments of the first `save` attempt in `optimize_image`
(format_optimizer.py 112-135): one branch per supported format. -/
def primarySaveArgs (fmt qualityLevel : String) (image : PImage) : SaveArgs :=
  let config := cfgFor fmt qualityLevel
  if fmt = "PNG" then
    { format := fmt, optimize := config.optimize, compressLevel := config.compressLevel,
      quality := none, progressive := none, method := none, lossless := none,
      image := prepareImageForFormat image fmt }
  else if fmt = "JPEG" then
    { format := fmt, optimize := config.optimize, compressLevel := none,
      quality := config.quality, progressive := some (config.progressive.getD false),
      method := none, lossless := none, image := prepareImageForFormat image fmt }
  else
    { format := fmt, optimize := config.optimize, compressLevel := none,
      quality := config.quality, progressive := none, method := config.method,
      lossless := some (config.lossless.getD false), image := prepareImageForFormat image fmt }

/-- The arguments of the fallback `save` in the `except` branch
(format_optimizer.py 143-147): PNG with `optimize=True` and defaults. -/
def fallbackSaveArgs (image : PImage) : SaveArgs :=
  { format := "PNG", optimize := true, compressLevel := none, quality := none,
    progressive := none, method := none, lossless := none,
    image := prepareImageForFormat image "PNG" }

/-- `ImageFormatOptimizer.optimize_image` (format_optimizer.py 69-147). -/
def optimizeImage (encode : SaveArgs → Except PyErr (List Nat))
    (image : PImage) (format qualityLevel : String) :
    Except PyErr (List Nat × String) :=
  let fmt := strUpper format
  if (formatConfigs fmt).isSome = true then
    match encode (primarySaveArgs fmt qualityLevel image) with
    | Except.ok bytes => Except.ok (bytes, fmt)
    | Except.error _ =>
      match encode (fallbackSaveArgs image) with
      | Except.ok bytes => Except.ok (bytes, "PNG")
      | Except.error e2 => Except.error e2
  else
    Except.error (PyErr.valueError ("Unsupported format: " ++ fmt))

/-- C5: whenever the first encode attempt for a supported format fails,
`optimize_image` performs exactly one fallback encode with the PNG fallback
arguments and nothing else: it returns the fallback bytes tagged with "PNG"
when that single retry succeeds, and surfaces the retry's own error (no
further attempts) when it fails too. -/
theorem C5_encode_fallback (encode : SaveArgs → Except PyErr (List Nat))
    (image : PImage) (format qualityLevel : String)
    (hfmt : strUpper format ∈ ["PNG", "JPEG", "WEBP"])
    (hfail : ∃ e, encode (primarySaveArgs (strUpper format) qualityLevel image) = Except.error e) :
    optimizeImage encode image format qualityLevel =
      match encode (fallbackSaveArgs image) with
      | Except.ok bytes => Except.ok (bytes, "PNG")
      | Except.error e2 => Except.error e2 := by
  obtain ⟨e, he⟩ := hfail
  have hsome : (formatConfigs (strUpper format)).isSome = true := by
    simp only [List.mem_cons, List.mem_singleton, List.not_mem_nil, or_false] at hfmt
    rcases hfmt with h | h | h <;> simp [formatConfigs, h]
  unfold optimizeImage
  simp only [hsome, if_pos, he]

def c5enc : SaveArgs → Except PyErr (List Nat) :=
  fun a => if a.format = "PNG" then Except.ok [7] else Except.error (PyErr.valueError "boom")

def c5img : PImage :=
  { mode := PMode.RGB, width := 1, height := 1, infoTransparency := false, alphaData := [] }

/-- C5 witness: a JPEG request whose JPEG encode fails is answered by the PNG
fallback bytes reported as PNG. -/
theorem C5_encode_fallback_witness :
    strUpper "JPEG" ∈ ["PNG", "JPEG", "WEBP"] ∧
    optimizeImage c5enc c5img "JPEG" "high" = Except.ok ([7], "PNG") := by
  refine ⟨by decide, ?_⟩
  have h := C5_encode_fallback c5enc c5img "JPEG" "high" (by decide)
    ⟨PyErr.valueError "boom", by rfl⟩
  exact h.trans (by rfl)

/-! ## Dimension calculator (image_processor.py 149-176) -/

/-- The tier to max-dimension ceiling mapping inside
`get_optimal_dimensions`; every string outside {ultra, high, medium} falls
into the final `else` branch, the one commented `# 'low'`. -/
def maxDimFor (targetQuality : String) : Nat :=
  if targetQuality = "ultra" then 8192
  else if targetQuality = "high" then 4096
  else if targetQuality = "medium" then 2048
  else 1024

/-- `HighResImageProcessor.get_optimal_dimensions`: Python float arithmetic
becomes exact rational arithmetic, and `int()` of a non-negative value
becomes `Nat.floor`. -/
def getOptimalDimensions (originalSize : Nat × Nat) (targetQuality : String) : Nat × Nat :=
  if max originalSize.1 originalSize.2 ≤ maxDimFor targetQuality then originalSize
  else
    (⌊(originalSize.1 : ℚ) *
        ((maxDimFor targetQuality : ℚ) / ((max originalSize.1 originalSize.2 : ℕ) : ℚ))⌋₊,
     ⌊(originalSize.2 : ℚ) *
        ((maxDimFor targetQuality : ℚ) / ((max originalSize.1 originalSize.2 : ℕ) : ℚ))⌋₊)

theorem getOptimalDimensions_eq (w h : ℕ) (targetQuality : String) :
    getOptimalDimensions (w, h) targetQuality =
      if max w h ≤ maxDimFor targetQuality then (w, h)
      else (w * maxDimFor targetQuality / max w h, h * maxDimFor targetQuality / max w h) := by
  unfold getOptimalDimensions
  by_cases hc : max w h ≤ maxDimFor targetQuality
  · simp [hc]
  · rw [if_neg hc, if_neg hc]
    have e1 : ((w, h).1 : ℚ) * ((maxDimFor targetQuality : ℚ) / ((max (w, h).1 (w, h).2 : ℕ) : ℚ))
        = ((w * maxDimFor targetQuality : ℕ) : ℚ) / ((max w h : ℕ) : ℚ) := by
      push_cast; ring
    have e2 : ((w, h).2 : ℚ) * ((maxDimFor targetQuality : ℚ) / ((max (w, h).1 (w, h).2 : ℕ) : ℚ))
        = ((h * maxDimFor targetQuality : ℕ) : ℚ) / ((max w h : ℕ) : ℚ) := by
      push_cast; ring
    rw [e1, e2, Nat.floor_div_eq_div, Nat.floor_div_eq_div]

theorem aspect_cross_bound (w h D M a b r1 r2 : ℕ) (hM : 0 < M)
    (hwM : w ≤ M) (hhM : h ≤ M) (hr1 : r1 < M) (hr2 : r2 < M)
    (e1 : M * a + r1 = w * D) (e2 : M * b + r2 = h * D) :
    |(a : ℤ) * h - (w : ℤ) * b| ≤ (M : ℤ) := by
  have ez1 : (M : ℤ) * a + r1 = w * D := by exact_mod_cast e1
  have ez2 : (M : ℤ) * b + r2 = h * D := by exact_mod_cast e2
  have hMa : (M : ℤ) * a = (w : ℤ) * D - r1 := by linarith
  have hMb : (M : ℤ) * b = (h : ℤ) * D - r2 := by linarith
  have key : ((a : ℤ) * h - (w : ℤ) * b) * M = (w : ℤ) * r2 - (h : ℤ) * r1 := by
    calc ((a : ℤ) * h - (w : ℤ) * b) * M
        = (h : ℤ) * ((M : ℤ) * a) - (w : ℤ) * ((M : ℤ) * b) := by ring
      _ = (h : ℤ) * ((w : ℤ) * D - r1) - (w : ℤ) * ((h : ℤ) * D - r2) := by rw [hMa, hMb]
      _ = (w : ℤ) * r2 - (h : ℤ) * r1 := by ring
  have hwr2 : (w : ℤ) * r2 ≤ (M : ℤ) * M := by
    exact_mod_cast Nat.mul_le_mul hwM (le_of_lt hr2)
  have hhr1 : (h : ℤ) * r1 ≤ (M : ℤ) * M := by
    exact_mod_cast Nat.mul_le_mul hhM (le_of_lt hr1)
  have h0a : (0 : ℤ) ≤ (w : ℤ) * r2 := by positivity
  have h0b : (0 : ℤ) ≤ (h : ℤ) * r1 := by positivity
  have hM0 : (0 : ℤ) < M := by exact_mod_cast hM
  rw [abs_le]
  constructor
  · have h1 : -(M : ℤ) * M ≤ ((a : ℤ) * h - (w : ℤ) * b) * M := by
      rw [key]; linarith
    exact le_of_mul_le_mul_right h1 hM0
  · have h2 : ((a : ℤ) * h - (w : ℤ) * b) * M ≤ (M : ℤ) * M := by
      rw [key]; linarith
    exact le_of_mul_le_mul_right h2 hM0

/-- C4 counterexample: at input size (2050, 3) and tier `medium`,
`get_optimal_dimensions` returns (2048, 2), and the resulting aspect ratio
2048/2 = 1024 differs from the input ratio 2050/3 by far more than the
claimed 1e-3 tolerance. -/
theorem C4_counterexample :
    getOptimalDimensions (2050, 3) "medium" = (2048, 2) ∧
    ¬(|((2048 : ℚ) / 2) - ((2050 : ℚ) / 3)| < 1 / 1000) := by
  constructor
  · rw [getOptimalDimensions_eq]
    decide
  · intro hcon
    rw [abs_sub_lt_iff] at hcon
    obtain ⟨h1, _⟩ := hcon
    norm_num at h1

/-- C4 (amended): `get_optimal_dimensions` maps the tiers to ceilings
8192/4096/2048/1024, returns the input unchanged when the long edge is at
most the ceiling, makes the long edge exactly the ceiling when it exceeds
it, and never upscales either axis; the aspect ratio is preserved up to
floor-rounding in the sense |outW·inH − inW·outH| ≤ max(inW, inH) — the
claimed pointwise bound |outW/outH − inW/inH| < 1e-3 does not hold (small
short edges round too coarsely, see the counterexample). -/
theorem C4_optimal_dimensions (w h : ℕ) (tier : String)
    (htier : tier ∈ ["ultra", "high", "medium", "low"]) :
    ((tier = "ultra" → maxDimFor tier = 8192) ∧
     (tier = "high" → maxDimFor tier = 4096) ∧
     (tier = "medium" → maxDimFor tier = 2048) ∧
     (tier = "low" → maxDimFor tier = 1024)) ∧
    (max w h ≤ maxDimFor tier → getOptimalDimensions (w, h) tier = (w, h)) ∧
    (maxDimFor tier < max w h →
      max (getOptimalDimensions (w, h) tier).1 (getOptimalDimensions (w, h) tier).2 =
        maxDimFor tier) ∧
    (getOptimalDimensions (w, h) tier).1 ≤ w ∧
    (getOptimalDimensions (w, h) tier).2 ≤ h ∧
    |((getOptimalDimensions (w, h) tier).1 : ℤ) * h -
        (w : ℤ) * ((getOptimalDimensions (w, h) tier).2 : ℤ)| ≤ (max w h : ℤ) := by
  have hmap : (tier = "ultra" → maxDimFor tier = 8192) ∧
      (tier = "high" → maxDimFor tier = 4096) ∧
      (tier = "medium" → maxDimFor tier = 2048) ∧
      (tier = "low" → maxDimFor tier = 1024) :=
    ⟨fun ht => by subst ht; rfl, fun ht => by subst ht; rfl,
     fun ht => by subst ht; rfl, fun ht => by subst ht; rfl⟩
  by_cases hc : max w h ≤ maxDimFor tier
  · have hr : getOptimalDimensions (w, h) tier = (w, h) := by
      rw [getOptimalDimensions_eq, if_pos hc]
    rw [hr]
    refine ⟨hmap, fun _ => rfl, fun hlt => absurd hc (by omega), le_refl w, le_refl h, ?_⟩
    simp [mul_comm]
  · have hlt : maxDimFor tier < max w h := by omega
    have hM0 : 0 < max w h := lt_of_le_of_lt (Nat.zero_le _) hlt
    have hr : getOptimalDimensions (w, h) tier =
        (w * maxDimFor tier / max w h, h * maxDimFor tier / max w h) := by
      rw [getOptimalDimensions_eq, if_neg hc]
    rw [hr]
    have hwle : w * maxDimFor tier / max w h ≤ w := by
      calc w * maxDimFor tier / max w h
          ≤ w * max w h / max w h :=
            Nat.div_le_div_right (Nat.mul_le_mul_left w (le_of_lt hlt))
        _ = w := Nat.mul_div_cancel w hM0
    have hhle : h * maxDimFor tier / max w h ≤ h := by
      calc h * maxDimFor tier / max w h
          ≤ h * max w h / max w h :=
            Nat.div_le_div_right (Nat.mul_le_mul_left h (le_of_lt hlt))
        _ = h := Nat.mul_div_cancel h hM0
    refine ⟨hmap, fun hle => absurd hle hc, fun _ => ?_, hwle, hhle, ?_⟩
    · rcases le_total h w with hwh | hwh
      · have hMw : max w h = w := max_eq_left hwh
        have hw0 : 0 < w := by omega
        have hwD : w * maxDimFor tier / max w h = maxDimFor tier := by
          rw [hMw, mul_comm, Nat.mul_div_cancel _ hw0]
        have hhD : h * maxDimFor tier / max w h ≤ maxDimFor tier := by
          rw [hMw]
          calc h * maxDimFor tier / w ≤ w * maxDimFor tier / w :=
              Nat.div_le_div_right (Nat.mul_le_mul_right _ hwh)
            _ = maxDimFor tier := by rw [mul_comm, Nat.mul_div_cancel _ hw0]
        rw [hwD]
        exact max_eq_left (hhD.trans_eq rfl)
      · have hMh : max w h = h := max_eq_right hwh
        have hh0 : 0 < h := by omega
        have hhD : h * maxDimFor tier / max w h = maxDimFor tier := by
          rw [hMh, mul_comm, Nat.mul_div_cancel _ hh0]
        have hwD : w * maxDimFor tier / max w h ≤ maxDimFor tier := by
          rw [hMh]
          calc w * maxDimFor tier / h ≤ h * maxDimFor tier / h :=
              Nat.div_le_div_right (Nat.mul_le_mul_right _ hwh)
            _ = maxDimFor tier := by rw [mul_comm, Nat.mul_div_cancel _ hh0]
        rw [hhD]
        exact max_eq_right (hwD.trans_eq rfl)
    · have hb := aspect_cross_bound w h (maxDimFor tier) (max w h)
        (w * maxDimFor tier / max w h) (h * maxDimFor tier / max w h)
        (w * maxDimFor tier % max w h) (h * maxDimFor tier % max w h)
        hM0 (le_max_left w h) (le_max_right w h)
        (Nat.mod_lt _ hM0) (Nat.mod_lt _ hM0)
        (Nat.div_add_mod _ _) (Nat.div_add_mod _ _)
      simpa [Nat.cast_max] using hb

/-- C4 witness: the amended statement at the oversized input (5000, 3000)
and tier `high`. -/
theorem C4_optimal_dimensions_witness :
    ("high" ∈ ["ultra", "high", "medium", "low"]) ∧
    ((("high" : String) = "ultra" → maxDimFor "high" = 8192) ∧
     (("high" : String) = "high" → maxDimFor "high" = 4096) ∧
     (("high" : String) = "medium" → maxDimFor "high" = 2048) ∧
     (("high" : String) = "low" → maxDimFor "high" = 1024)) ∧
    (max 5000 3000 ≤ maxDimFor "high" → getOptimalDimensions (5000, 3000) "high" = (5000, 3000)) ∧
    (maxDimFor "high" < max 5000 3000 →
      max (getOptimalDimensions (5000, 3000) "high").1 (getOptimalDimensions (5000, 3000) "high").2 =
        maxDimFor "high") ∧
    (getOptimalDimensions (5000, 3000) "high").1 ≤ 5000 ∧
    (getOptimalDimensions (5000, 3000) "high").2 ≤ 3000 ∧
    |((getOptimalDimensions (5000, 3000) "high").1 : ℤ) * 3000 -
        (5000 : ℤ) * ((getOptimalDimensions (5000, 3000) "high").2 : ℤ)| ≤ (max 5000 3000 : ℤ) :=
  ⟨by decide, C4_optimal_dimensions 5000 3000 "high" (by decide)⟩

theorem adjustConfig_high (format : String) (config : EncodeConfig) :
    adjustConfig format "high" config = config := by
  unfold adjustConfig
  rw [if_neg (by decide : ¬("high" : String) = "ultra"), if_pos rfl]

/-- C10: an unknown quality string is accepted silently: the encode
parameter adjustment leaves the base (high-tier) configuration untouched
exactly as tier `high` does, the dimension calculator falls into the
final `else` branch and behaves exactly as tier `low` (ceiling 1024), and
`optimize_image` behaves identically to tier `high` — no rejection
anywhere. -/
theorem C10_unknown_tier (qualityLevel : String)
    (hq : qualityLevel ∉ ["ultra", "high", "medium", "low"]) :
    (∀ format config, adjustConfig format qualityLevel config = adjustConfig format "high" config) ∧
    (maxDimFor qualityLevel = 1024 ∧ maxDimFor "low" = 1024) ∧
    (∀ originalSize, getOptimalDimensions originalSize qualityLevel =
        getOptimalDimensions originalSize "low") ∧
    (∀ encode image format, optimizeImage encode image format qualityLevel =
        optimizeImage encode image format "high") := by
  simp only [List.mem_cons, List.not_mem_nil, or_false] at hq
  push_neg at hq
  obtain ⟨h1, h2, h3, h4⟩ := hq
  have hadj : ∀ format config,
      adjustConfig format qualityLevel config = adjustConfig format "high" config := by
    intro format config
    rw [adjustConfig_high]
    unfold adjustConfig
    rw [if_neg h1, if_neg h2, if_neg h3, if_neg h4]
  have hmd : maxDimFor qualityLevel = 1024 := by
    unfold maxDimFor
    rw [if_neg h1, if_neg h2, if_neg h3]
  refine ⟨hadj, ⟨hmd, by decide⟩, ?_, ?_⟩
  · intro originalSize
    unfold getOptimalDimensions
    rw [show maxDimFor qualityLevel = maxDimFor "low" from by rw [hmd]; decide]
  · intro encode image format
    unfold optimizeImage primarySaveArgs cfgFor
    simp only [hadj]

/-- C10 witness: the unknown quality string `banana`. -/
theorem C10_unknown_tier_witness :
    ("banana" ∉ (["ultra", "high", "medium", "low"] : List String)) ∧
    adjustConfig "PNG" "banana" default = adjustConfig "PNG" "high" default ∧
    getOptimalDimensions (5000, 3000) "banana" = getOptimalDimensions (5000, 3000) "low" ∧
    optimizeImage c5enc c5img "PNG" "banana" = optimizeImage c5enc c5img "PNG" "high" := by
  have h := C10_unknown_tier "banana" (by decide)
  exact ⟨by decide, h.1 "PNG" default, h.2.2.1 (5000, 3000), h.2.2.2 c5enc c5img "PNG"⟩

/-! ## The /remove-background handler (main.py 142-223)

The external stages (classifier recommendation, preprocessing, the rembg
session, postprocessing) are opaque collaborators here; they are passed
in as explicit functions.  The `List String` returned alongside the
response records which pipeline stages actually executed, instrumenting
the control flow so that "stage X runs / does not run" is observable. -/

def AVAILABLE_MODELS : List String :=
  ["u2net", "u2net_human_seg", "silueta", "isnet-general-use"]

structure Request where
  contentType : Option String
  filename : Option String
  model : String
  outputFormat : String
  quality : String
deriving DecidableEq

structure Stages where
  recommend : PImage → String
  preprocessStage : PImage → PImage
  segmentStage : String → PImage → PImage
  postprocessStage : PImage → PImage → PImage
  encode : SaveArgs → Except PyErr (List Nat)

structure HttpResponse where
  status : Nat
  mediaType : String
  bytes : List Nat
deriving DecidableEq

/-- Python `not image.content_type or not image.content_type.startswith('image/')`
(negated): present, and starting with `image/`. -/
def isImageUpload (contentType : Option String) : Bool :=
  match contentType with
  | none => false
  | some s => List.isPrefixOf "image/".data s.data

def contentTypeFor (format : String) : String :=
  if format = "PNG" then "image/png"
  else if format = "JPEG" then "image/jpeg"
  else if format = "WEBP" then "image/webp"
  else "image/png"

/-- Python `str(e)` for the exceptions the handler can catch:
`str` of a Starlette `HTTPException` is `"{status_code}: {detail}"`, and
`str` of a `ValueError` is its message. -/
def pyErrStr (e : PyErr) : String :=
  match e with
  | PyErr.valueError msg => msg
  | PyErr.httpExn status detail => toString status ++ ": " ++ detail

def invalidModelDetail : String :=
  "Invalid model. Available models: " ++ String.intercalate ", " AVAILABLE_MODELS

/-- The body of the `try:` block of `remove_background` (main.py 152-219). -/
def removeBackgroundBody (st : Stages) (req : Request) (originalImage : PImage) :
    Except PyErr HttpResponse × List String :=
  if isImageUpload req.contentType = false then
    (Except.error (PyErr.httpExn 400 "File must be an image"), [])
  else
    let selectedModel := if req.model = "auto" then st.recommend originalImage else req.model
    if selectedModel ∉ AVAILABLE_MODELS then
      (Except.error (PyErr.httpExn 400 invalidModelDetail), [])
    else
      let processedImage := st.preprocessStage originalImage
      let segmented := st.segmentStage selectedModel processedImage
      let resultImage := st.postprocessStage segmented originalImage
      let optimalFormat :=
        if req.outputFormat = "auto" then getOptimalFormat resultImage req.filename
        else strUpper req.outputFormat
      match optimizeImage st.encode resultImage optimalFormat req.quality with
      | Except.error e => (Except.error e, ["preprocess", "segment", "postprocess"])
      | Except.ok (bytes, finalFormat) =>
          (Except.ok { status := 200, mediaType := contentTypeFor finalFormat, bytes := bytes },
           ["preprocess", "segment", "postprocess", "encode"])

/-- `remove_background` with its catch-all `except Exception` (main.py
221-223): every exception raised in the body, the 400 `HTTPException`
included, is re-raised as a 500 `HTTPException` whose detail wraps
`str(e)`. -/
def removeBackground (st : Stages) (req : Request) (originalImage : PImage) :
    Except (Nat × String) HttpResponse × List String :=
  match removeBackgroundBody st req originalImage with
  | (Except.ok r, trace) => (Except.ok r, trace)
  | (Except.error e, trace) =>
      (Except.error (500, "Error processing image: " ++ pyErrStr e), trace)

def stubStages : Stages :=
  { recommend := fun _ => "u2net", preprocessStage := fun i => i,
    segmentStage := fun _ i => i, postprocessStage := fun r _ => r,
    encode := fun _ => Except.ok [0] }

def c8req1 : Request :=
  { contentType := some "image/png", filename := none, model := "bogus",
    outputFormat := "PNG", quality := "high" }

def c8req2 : Request :=
  { contentType := some "image/png", filename := none, model := "u2net",
    outputFormat := "GIF", quality := "high" }

/-- C8 counterexample: an unknown model id is surfaced with server-error
status 500 (the catch-all handler swallows the 400 rejection), not as a
client-side rejection; and for an unknown output format the error message
names the format but lists no valid values, and the trace shows that
segmentation DID run before the rejection. -/
theorem C8_counterexample :
    removeBackground stubStages c8req1 c5img =
      (Except.error (500,
        "Error processing image: 400: Invalid model. Available models: u2net, u2net_human_seg, silueta, isnet-general-use"),
       []) ∧
    removeBackground stubStages c8req2 c5img =
      (Except.error (500, "Error processing image: Unsupported format: GIF"),
       ["preprocess", "segment", "postprocess"]) := by
  constructor <;> rfl

theorem formatConfigs_eq_none (s : String) (h : s ∉ ["PNG", "JPEG", "WEBP"]) :
    formatConfigs s = none := by
  simp only [List.mem_cons, List.not_mem_nil, or_false] at h
  push_neg at h
  obtain ⟨h1, h2, h3⟩ := h
  unfold formatConfigs
  rw [if_neg h1, if_neg h2, if_neg h3]

/-- C8 (amended): an explicit model id outside the known set is rejected
before any pipeline stage runs (empty stage trace) with a detail that lists
the valid model ids, but the catch-all exception handler re-surfaces it with
server-error status 500, not as a client-side 4xx rejection; an output
format outside {PNG, JPEG, WEBP} (case-insensitive) makes `optimize_image`
raise before any encode attempt (the result is independent of the encoder
and names the offending format, without listing the valid values), and in
the handler this happens only after preprocessing, segmentation and
postprocessing have already run, again surfaced as a 500. -/
theorem C8_parameter_rejection :
    (∀ (st : Stages) (req : Request) (img : PImage),
        isImageUpload req.contentType = true → req.model ≠ "auto" →
        req.model ∉ AVAILABLE_MODELS →
        removeBackground st req img =
          (Except.error (500, "Error processing image: " ++
              pyErrStr (PyErr.httpExn 400 invalidModelDetail)), [])) ∧
    (∀ (encode : SaveArgs → Except PyErr (List Nat)) (image : PImage)
        (format qualityLevel : String),
        strUpper format ∉ ["PNG", "JPEG", "WEBP"] →
        optimizeImage encode image format qualityLevel =
          Except.error (PyErr.valueError ("Unsupported format: " ++ strUpper format))) ∧
    (∀ (st : Stages) (req : Request) (img : PImage),
        isImageUpload req.contentType = true → req.model ≠ "auto" →
        req.model ∈ AVAILABLE_MODELS → req.outputFormat ≠ "auto" →
        strUpper req.outputFormat ∉ ["PNG", "JPEG", "WEBP"] →
        removeBackground st req img =
          (Except.error (500, "Error processing image: " ++
              ("Unsupported format: " ++ strUpper req.outputFormat)),
           ["preprocess", "segment", "postprocess"])) := by
  have hopt : ∀ (encode : SaveArgs → Except PyErr (List Nat)) (image : PImage)
      (format qualityLevel : String),
      strUpper format ∉ ["PNG", "JPEG", "WEBP"] →
      optimizeImage encode image format qualityLevel =
        Except.error (PyErr.valueError ("Unsupported format: " ++ strUpper format)) := by
    intro encode image format qualityLevel hf
    have hnone : formatConfigs (strUpper format) = none := formatConfigs_eq_none _ hf
    unfold optimizeImage
    simp [hnone]
  refine ⟨?_, hopt, ?_⟩
  · intro st req img hct hauto hmodel
    unfold removeBackground removeBackgroundBody
    rw [if_neg (by simp [hct]), if_neg hauto, if_pos hmodel]
  · intro st req img hct hauto hmodel hfmtauto hfmt
    have h1 := hopt st.encode
      (st.postprocessStage (st.segmentStage req.model (st.preprocessStage img)) img)
      (strUpper req.outputFormat) req.quality
      (by rw [strUpper_strUpper]; exact hfmt)
    rw [strUpper_strUpper] at h1
    simp [removeBackground, removeBackgroundBody, hct, if_neg hauto,
      if_neg (not_not_intro hmodel), if_neg hfmtauto, h1, pyErrStr]

def c8req3 : Request :=
  { contentType := some "image/jpeg", filename := none, model := "fancy",
    outputFormat := "PNG", quality := "high" }

def c8req4 : Request :=
  { contentType := some "image/jpeg", filename := none, model := "silueta",
    outputFormat := "TIFF", quality := "low" }

/-- C8 witness: the amended statement instantiated at the unknown model id
`fancy`, the unknown format `BMP` at the optimizer, and the unknown format
`TIFF` at the handler. -/
theorem C8_parameter_rejection_witness :
    removeBackground stubStages c8req3 c5img =
      (Except.error (500, "Error processing image: " ++
          pyErrStr (PyErr.httpExn 400 invalidModelDetail)), []) ∧
    optimizeImage c5enc c5img "BMP" "high" =
      Except.error (PyErr.valueError ("Unsupported format: " ++ strUpper "BMP")) ∧
    removeBackground stubStages c8req4 c5img =
      (Except.error (500, "Error processing image: " ++
          ("Unsupported format: " ++ strUpper "TIFF")),
       ["preprocess", "segment", "postprocess"]) := by
  obtain ⟨h1, h2, h3⟩ := C8_parameter_rejection
  exact ⟨h1 stubStages c8req3 c5img (by decide) (by decide) (by decide),
         h2 c5enc c5img "BMP" "high" (by decide),
         h3 stubStages c8req4 c5img (by decide) (by decide) (by decide) (by decide) (by decide)⟩

/-! ## Image classifier (image_classifier.py 253-280)

`_determine_image_type` consumes the characteristics dictionary; the
fields it reads are modelled as a record, with Python floats as
rationals. -/

structure FaceStats where
  face_probability : ℚ
  likely_portrait : Bool
deriving DecidableEq

structure ObjectStats where
  object_likelihood : ℚ
  geometric_shapes : Nat
deriving DecidableEq

structure ComplexityStats where
  entropy : ℚ
  complexity_level : String
deriving DecidableEq

structure ColorStats where
  skin_percentage : ℚ
deriving DecidableEq

structure Characteristics where
  face_stats : FaceStats
  object_stats : ObjectStats
  complexity : ComplexityStats
  color_stats : ColorStats
deriving DecidableEq

/-- `ImageClassifier._determine_image_type`. -/
def determineImageType (c : Characteristics) : String :=
  if c.face_stats.likely_portrait = true ∧ c.face_stats.face_probability > 0.4 ∧
      c.color_stats.skin_percentage > 0.15 then "portrait"
  else if c.object_stats.object_likelihood > 0.6 ∧ c.object_stats.geometric_shapes > 0 ∧
      (c.complexity.complexity_level = "low" ∨ c.complexity.complexity_level = "medium") then
    "product"
  else if c.complexity.complexity_level = "high" ∧ c.complexity.entropy > 6.5 then "artistic"
  else "general"

/-- Rule 1 of the spec's cascade (section 4.2). -/
def portraitRule (c : Characteristics) : Prop :=
  c.face_stats.likely_portrait = true ∧ c.face_stats.face_probability > 0.4 ∧
    c.color_stats.skin_percentage > 0.15

/-- Rule 2 of the spec's cascade. -/
def productRule (c : Characteristics) : Prop :=
  c.object_stats.object_likelihood > 0.6 ∧ c.object_stats.geometric_shapes > 0 ∧
    (c.complexity.complexity_level = "low" ∨ c.complexity.complexity_level = "medium")

/-- Rule 3 of the spec's cascade. -/
def artisticRule (c : Characteristics) : Prop :=
  c.complexity.complexity_level = "high" ∧ c.complexity.entropy > 6.5

/-- C1: `_determine_image_type` is the deterministic first-match-wins
cascade of the spec: portrait exactly on rule 1; product exactly when rule 1
fails and rule 2 holds; artistic exactly when rules 1 and 2 fail and rule 3
holds; general exactly when all three rules fail. -/
theorem C1_classifier_cascade (c : Characteristics) :
    (determineImageType c = "portrait" ↔ portraitRule c) ∧
    (determineImageType c = "product" ↔ ¬portraitRule c ∧ productRule c) ∧
    (determineImageType c = "artistic" ↔ ¬portraitRule c ∧ ¬productRule c ∧ artisticRule c) ∧
    (determineImageType c = "general" ↔ ¬portraitRule c ∧ ¬productRule c ∧ ¬artisticRule c) := by
  unfold determineImageType portraitRule productRule artisticRule
  split_ifs with hp hq ha
  · simp [hp, show ("portrait" : String) ≠ "product" from by decide,
      show ("portrait" : String) ≠ "artistic" from by decide,
      show ("portrait" : String) ≠ "general" from by decide]
  · simp [hp, hq, show ("product" : String) ≠ "portrait" from by decide,
      show ("product" : String) ≠ "artistic" from by decide,
      show ("product" : String) ≠ "general" from by decide]
  · simp [hp, hq, ha, show ("artistic" : String) ≠ "portrait" from by decide,
      show ("artistic" : String) ≠ "product" from by decide,
      show ("artistic" : String) ≠ "general" from by decide]
  · simp [hp, hq, ha, show ("general" : String) ≠ "portrait" from by decide,
      show ("general" : String) ≠ "product" from by decide,
      show ("general" : String) ≠ "artistic" from by decide]

/-! ## Post-processing of the segmentation result (image_processor.py 66-127)

A numpy array is a shape together with flat data.  The smoothing and
edge-refinement primitives (`cv2.GaussianBlur`, `morphologyEx`, and the
whole `_refine_edges` body) are opaque functions passed in as
parameters. -/

structure NpArray where
  shape : List Nat
  data : List Nat
deriving DecidableEq

/-- PIL `Image.size` is (width, height); `np.array` of a PIL raster has
shape (height, width) or (height, width, channels). -/
def imgSize (a : NpArray) : Nat × Nat :=
  match a.shape with
  | height :: width :: _ => (width, height)
  | _ => (0, 0)

/-- `array[:, :, c]` for a (H, W, K) array. -/
def getChannel (a : NpArray) (c : Nat) : List Nat :=
  match a.shape with
  | [_, _, k] => (List.range (a.data.length / k)).map (fun i => a.data.getD (i * k + c) 0)
  | _ => []

/-- `array[:, :, c] = vals` for a (H, W, K) array. -/
def setChannel (a : NpArray) (c : Nat) (vals : List Nat) : NpArray :=
  match a.shape with
  | [_, _, k] =>
      { a with data := (List.range a.data.length).map (fun j =>
          if j % k = c then vals.getD (j / k) 0 else a.data.getD j 0) }
  | _ => a

/-- `HighResImageProcessor._smooth_alpha_channel` (image_processor.py
90-102): Gaussian blur, then morphological close, then open. -/
def smoothAlphaChannel (blurFn closeFn openFn : List Nat → List Nat)
    (alpha : List Nat) : List Nat :=
  openFn (closeFn (blurFn alpha))

/-- `HighResImageProcessor.postprocess_result` (image_processor.py 66-88).
The guard is `len(result_array.shape) == 4`, exactly as in the source,
even though its own comment reads `# RGBA image`. -/
def postprocessResult (resizeFn : NpArray → Nat × Nat → NpArray)
    (blurFn closeFn openFn : List Nat → List Nat)
    (refineEdgesFn : NpArray → NpArray)
    (result original : NpArray) : NpArray :=
  let resized :=
    if imgSize result ≠ imgSize original then resizeFn result (imgSize original) else result
  if resized.shape.length = 4 then
    refineEdgesFn
      (setChannel resized 3 (smoothAlphaChannel blurFn closeFn openFn (getChannel resized 3)))
  else resized

/-- C2 (code bug): an RGBA result array has shape (H, W, 4), whose length is
3, never 4, so the `len(result_array.shape) == 4` guard never fires:
`postprocess_result` returns every size-matching RGBA result bit-identical,
with no alpha smoothing and no edge refinement, whatever the smoothing,
refinement and resize primitives are. -/
theorem C2_postprocess_never_smooths (resizeFn : NpArray → Nat × Nat → NpArray)
    (blurFn closeFn openFn : List Nat → List Nat) (refineEdgesFn : NpArray → NpArray)
    (height width : Nat) (data : List Nat) :
    postprocessResult resizeFn blurFn closeFn openFn refineEdgesFn
        ⟨[height, width, 4], data⟩ ⟨[height, width, 4], data⟩ =
      ⟨[height, width, 4], data⟩ := by
  unfold postprocessResult
  simp [imgSize]

/-! ## Classical fallback segmenters (main_simple.py 27-119)

The OpenCV primitives are opaque collaborators, passed in as a bundle of
functions over flat pixel lists; the code under verification is the
dataflow between them. -/

structure RGBImage where
  width : Nat
  height : Nat
  pixels : List (Nat × Nat × Nat)
deriving DecidableEq

structure RGBAImage where
  width : Nat
  height : Nat
  pixels : List (Nat × Nat × Nat)
  alpha : List Nat
deriving DecidableEq

structure CVOps where
  cvtHSV : List (Nat × Nat × Nat) → List (Nat × Nat × Nat)
  inRange : List (Nat × Nat × Nat) → Nat × Nat × Nat → Nat × Nat × Nat → List Nat
  cvtGray : List (Nat × Nat × Nat) → List Nat
  canny : List Nat → Nat → Nat → List Nat
  dilate : List Nat → Nat → List Nat
  grabCut : List (Nat × Nat × Nat) → Nat × Nat × Nat × Nat → Nat → Except Unit (List Nat)
  threshOtsu : List Nat → List Nat
  morphCloseE5 : List Nat → List Nat
  morphOpenE5 : List Nat → List Nat
  gaussianBlur3 : List Nat → List Nat
  gaussianBlur5 : List Nat → List Nat
  adaptiveThreshold : List Nat → List Nat
  morphClose3 : List Nat → List Nat
  morphOpen3 : List Nat → List Nat
  bitwiseNot : List Nat → List Nat

/-- `simple_background_removal` (main_simple.py 27-60): the input is the
RGB-converted upload (`np.array(image.convert('RGB'))`). -/
def simpleBackgroundRemoval (ops : CVOps) (image : RGBImage) : RGBAImage :=
  let imgArray := image.pixels
  let gray := ops.cvtGray imgArray
  let blurred := ops.gaussianBlur5 gray
  let mask0 := ops.adaptiveThreshold blurred
  let mask1 := ops.morphClose3 mask0
  let mask2 := ops.morphOpen3 mask1
  let mask3 := ops.bitwiseNot mask2
  let mask4 := ops.gaussianBlur3 mask3
  { width := image.width, height := image.height, pixels := imgArray, alpha := mask4 }

/-- `enhanced_background_removal` (main_simple.py 62-119).  `white_mask`
(cue i) and `edges` (cue ii) are computed exactly as in the source and,
exactly as in the source, never used afterwards; GrabCut failure is caught
by the bare `except:` and replaced by the Otsu threshold of the grayscale
image. -/
def enhancedBackgroundRemoval (ops : CVOps) (image : RGBImage) : RGBAImage :=
  let imgArray := image.pixels
  let hsv := ops.cvtHSV imgArray
  let whiteMask := ops.inRange hsv (0, 0, 200) (180, 30, 255)
  let gray := ops.cvtGray imgArray
  let edges := ops.dilate (ops.canny gray 50 150) 1
  let mask2 :=
    match ops.grabCut imgArray
        (image.width / 8, image.height / 8, image.width * 3 / 4, image.height * 3 / 4) 5 with
    | Except.ok m => m.map (fun v => if v = 2 ∨ v = 0 then 0 else 1)
    | Except.error _ => ops.threshOtsu gray
  let finalMask0 := mask2.map (fun v => v * 255)
  let finalMask1 := ops.morphCloseE5 finalMask0
  let finalMask2 := ops.morphOpenE5 finalMask1
  let finalMask3 := ops.gaussianBlur3 finalMask2
  { width := image.width, height := image.height, pixels := imgArray, alpha := finalMask3 }

/-- C7: the emitted alpha mask of the enhanced classical path is exactly
blur(open(close(255 * base))) where base is the GrabCut labelling (2/0 to
background, else foreground) or, on GrabCut failure — handled internally,
the function stays total — the Otsu threshold of the grayscale image; and
the output is invariant under arbitrary changes to the color-range cue
(cvtHSV/inRange) and the edge cue (canny/dilate) primitives. -/
theorem C7_enhanced_mask_policy (ops ops2 : CVOps) (image : RGBImage)
    (hgray : ops2.cvtGray = ops.cvtGray)
    (hgc : ops2.grabCut = ops.grabCut)
    (hotsu : ops2.threshOtsu = ops.threshOtsu)
    (hclose : ops2.morphCloseE5 = ops.morphCloseE5)
    (hopen : ops2.morphOpenE5 = ops.morphOpenE5)
    (hblur : ops2.gaussianBlur3 = ops.gaussianBlur3) :
    enhancedBackgroundRemoval ops2 image = enhancedBackgroundRemoval ops image ∧
    (enhancedBackgroundRemoval ops image).alpha =
      ops.gaussianBlur3 (ops.morphOpenE5 (ops.morphCloseE5
        ((match ops.grabCut image.pixels
            (image.width / 8, image.height / 8, image.width * 3 / 4, image.height * 3 / 4) 5 with
          | Except.ok m => m.map (fun v => if v = 2 ∨ v = 0 then 0 else 1)
          | Except.error _ =>
              ops.threshOtsu (ops.cvtGray image.pixels)).map (fun v => v * 255)))) := by
  constructor
  · simp only [enhancedBackgroundRemoval, hgray, hgc, hotsu, hclose, hopen, hblur]
  · rfl

def opsA : CVOps :=
  { cvtHSV := fun p => p, inRange := fun _ _ _ => [], cvtGray := fun _ => [5],
    canny := fun m _ _ => m, dilate := fun m _ => m,
    grabCut := fun _ _ _ => Except.error (), threshOtsu := fun g => g,
    morphCloseE5 := fun m => m, morphOpenE5 := fun m => m, gaussianBlur3 := fun m => m,
    gaussianBlur5 := fun m => m, adaptiveThreshold := fun m => m,
    morphClose3 := fun m => m, morphOpen3 := fun m => m, bitwiseNot := fun m => m }

def opsB : CVOps :=
  { opsA with
    cvtHSV := fun _ => []
    inRange := fun _ _ _ => [9, 9]
    canny := fun _ _ _ => [1]
    dilate := fun _ _ => [2] }

def c7img : RGBImage := { width := 2, height := 1, pixels := [(1, 2, 3), (4, 5, 6)] }

/-- C7 witness: two primitive bundles that differ arbitrarily in the
color-range and edge cues produce the same output on a concrete image, and
that output's alpha is the smoothed fallback (Otsu) mask. -/
theorem C7_enhanced_mask_policy_witness :
    enhancedBackgroundRemoval opsB c7img = enhancedBackgroundRemoval opsA c7img ∧
    (enhancedBackgroundRemoval opsA c7img).alpha =
      opsA.gaussianBlur3 (opsA.morphOpenE5 (opsA.morphCloseE5
        ((match opsA.grabCut c7img.pixels
            (c7img.width / 8, c7img.height / 8, c7img.width * 3 / 4, c7img.height * 3 / 4) 5 with
          | Except.ok m => m.map (fun v => if v = 2 ∨ v = 0 then 0 else 1)
          | Except.error _ =>
              opsA.threshOtsu (opsA.cvtGray c7img.pixels)).map (fun v => v * 255)))) :=
  C7_enhanced_mask_policy opsA opsB c7img rfl rfl rfl rfl rfl rfl

/-- C9: both classical segmenters return an image of exactly the input's
width and height whose R, G, B planes are the RGB-converted input's pixel
values unchanged — only the alpha plane is newly computed. -/
theorem C9_segmenters_preserve_color (ops : CVOps) (image : RGBImage) :
    (simpleBackgroundRemoval ops image).pixels = image.pixels ∧
    (simpleBackgroundRemoval ops image).width = image.width ∧
    (simpleBackgroundRemoval ops image).height = image.height ∧
    (enhancedBackgroundRemoval ops image).pixels = image.pixels ∧
    (enhancedBackgroundRemoval ops image).width = image.width ∧
    (enhancedBackgroundRemoval ops image).height = image.height :=
  ⟨rfl, rfl, rfl, rfl, rfl, rfl⟩

end BGRemover
